import Mathlib

/-!
Shallow embedding of the mika-bot admin-panel frontend core:
the credential client (`web/frontend/src/services/api.js`), the session
gate (`AuthContext`), the route guards (`App.jsx`), and the chat session
controller (`web/frontend/src/pages/Chat.jsx`).  Asynchronous network
completions are passed in explicitly as outcome values; React state is
explicit record state.
-/

/-- JSON response body fields the client reads.  `error` keeps presence
information (`data.error || 'API Error'` distinguishes absent/empty from a
message); `authenticated` and `setup_needed` are only ever read for JS
truthiness (`if (data.authenticated)`, `if (setupNeeded)`), so they are
modelled as the Booleans those tests yield. -/
structure JsonBody where
  error : Option String := none
  authenticated : Bool := false
  setup_needed : Bool := false
deriving DecidableEq, Repr

/-- Outcome of `fetch(url, config)` followed by `response.json()`:
either the fetch promise rejects (network failure), or a response arrives
with a status code, a flag for whether the body parses as JSON, and the
parsed body. -/
inductive FetchOutcome where
  | netFail : FetchOutcome
  | resp (status : Nat) (parseOk : Bool) (body : JsonBody) : FetchOutcome
deriving DecidableEq, Repr

/-- Errors a `request` call can propagate: `ApiError(message, status)`
from `api.js`, the fetch rejection, or the `response.json()` rejection. -/
inductive ReqError where
  | apiError (message : String) (status : Nat) : ReqError
  | netError : ReqError
  | parseError : ReqError
deriving DecidableEq, Repr

/-- Result of `request(endpoint, options)`:the resolved body or a
propagated error. -/
inductive ReqResult where
  | ok (body : JsonBody) : ReqResult
  | err (e : ReqError) : ReqResult
deriving DecidableEq, Repr

/-- `response.ok`: status in the range 200-299. -/
def statusOk (status : Nat) : Bool :=
  200 ≤ status && status < 300

/-- JS `x || d` on an optional string field: an absent field and the
empty string are both falsy, so either yields the default `d`. -/
def jsOr (o : Option String) (d : String) : String :=
  match o with
  | none => d
  | some s => if s = "" then d else s

/-- `request` from `api.js`: on a 401 it throws `ApiError('Unauthorized', 401)`
before reading the body; otherwise it parses the body, throws
`ApiError(data.error || 'API Error', response.status)` on a non-ok status,
and returns the body on success.  The surrounding `catch` rethrows
unchanged. -/
def request (f : FetchOutcome) : ReqResult :=
  match f with
  | .netFail => .err .netError
  | .resp status parseOk body =>
    if status = 401 then
      .err (.apiError "Unauthorized" 401)
    else if !parseOk then
      .err .parseError
    else if !statusOk status then
      .err (.apiError (jsOr body.error "API Error") status)
    else
      .ok body

/-- Login page error display (`Login.jsx` catch branch):
`setError(err.message || 'Failed to authenticate')` — the caught error's
message, with a fallback when that message is the empty string. -/
def displayError (message : String) : String :=
  if message = "" then "Failed to authenticate" else message

/-- React state owned by `AuthProvider`: `user` is either
`{ authenticated: true }` or `null`, modelled by the Boolean the guards
test; `loading` and `setupNeeded` are the other two `useState` cells. -/
structure AuthState where
  user : Bool
  loading : Bool
  setupNeeded : Bool
deriving DecidableEq, Repr

/-- Initial `AuthProvider` state: `user = null`, `loading = true`,
`setupNeeded = false`. -/
def initialAuthState : AuthState :=
  { user := false, loading := true, setupNeeded := false }

/-- `checkAuth` from `AuthContext`: on success sets `user` from
`data.authenticated` and `setupNeeded` from `data.setup_needed`; on any
thrown error sets `user = null` only (the catch does not touch
`setupNeeded`); `finally` clears `loading` in both cases. -/
def checkAuth (s : AuthState) (r : ReqResult) : AuthState :=
  match r with
  | .ok body =>
    { user := body.authenticated, loading := false, setupNeeded := body.setup_needed }
  | .err _ =>
    { s with user := false, loading := false }

/-- `login(password)` from `AuthContext`: awaits `api.login`, then awaits
`checkAuth`.  If the login request throws, `checkAuth` is never reached
and the error propagates to the caller; `checkAuth` itself swallows its
own errors, so the second outcome never throws.  Returns the resulting
state and the propagated error, if any. -/
def login (s : AuthState) (loginR : ReqResult) (checkR : ReqResult) :
    AuthState × Option ReqError :=
  match loginR with
  | .err e => (s, some e)
  | .ok _ => (checkAuth s checkR, none)

/-- `logout` from `AuthContext`: awaits `api.logout`, then sets
`user = null`.  If the logout request throws, the `setUser(null)` line is
never reached and the error propagates. -/
def logout (s : AuthState) (r : ReqResult) : AuthState × Option ReqError :=
  match r with
  | .err e => (s, some e)
  | .ok _ => ({ s with user := false }, none)

/-- Session Gate phases from the design's data model. -/
inductive Phase where
  | Unresolved : Phase
  | SetupRequired : Phase
  | Unauthenticated : Phase
  | Authenticated : Phase
deriving DecidableEq, Repr

/-- Phase derived from the provider state, in the precedence order the
route guards test the fields: `loading`, then `setupNeeded`, then
`user`. -/
def phase (s : AuthState) : Phase :=
  if s.loading then .Unresolved
  else if s.setupNeeded then .SetupRequired
  else if s.user then .Authenticated
  else .Unauthenticated

/-- What a route guard renders: the login page, the setup page (the same
`Login` component with `mode="setup"`), the protected layout with its
outlet, the `PrivateRoute` spinner, nothing (`return null`), or a
`Navigate` redirect. -/
inductive View where
  | LoginForm : View
  | SetupForm : View
  | Protected : View
  | Spinner : View
  | Blank : View
  | Redirect (target : String) : View
deriving DecidableEq, Repr

/-- The two child routes nested under `PublicRoute` in `App.jsx`:
`/login` renders `Login mode="login"`, `/setup` renders
`Login mode="setup"`. -/
inductive PublicChild where
  | loginPage : PublicChild
  | setupPage : PublicChild
deriving DecidableEq, Repr

/-- What `Outlet` renders for a `PublicRoute` child. -/
def renderPublicChild (c : PublicChild) : View :=
  match c with
  | .loginPage => .LoginForm
  | .setupPage => .SetupForm

/-- `PrivateRoute` from `App.jsx`: spinner while loading; redirect to
`/setup` when setup is needed; redirect to `/login` when there is no
user; otherwise the protected layout. -/
def PrivateRoute (s : AuthState) : View :=
  if s.loading then .Spinner
  else if s.setupNeeded then .Redirect "/setup"
  else if !s.user then .Redirect "/login"
  else .Protected

/-- `PublicRoute` from `App.jsx`: `null` while loading; the child outlet
whenever setup is needed (for both `/login` and `/setup`); redirect to
`/` when a user exists; otherwise the child outlet. -/
def PublicRoute (s : AuthState) (c : PublicChild) : View :=
  if s.loading then .Blank
  else if s.setupNeeded then renderPublicChild c
  else if s.user then .Redirect "/"
  else renderPublicChild c

/-- A message-log entry from the chat console: `{ text, sender }`,
position given by list index. -/
structure MsgEntry where
  text : String
  sender : String
deriving DecidableEq, Repr

/-- One outbound wire frame:
`JSON.stringify({ type: 'message', content: text })`. -/
structure OutFrame where
  type : String
  content : String
deriving DecidableEq, Repr

/-- One parsed inbound frame, with the two fields `ws.onmessage` reads;
either may be absent. -/
structure InFrame where
  content : Option String := none
  sender : Option String := none
deriving DecidableEq, Repr

/-- JS truthiness of an optional string field: `undefined` and `""` are
falsy, every other string is truthy. -/
def jsTruthy (o : Option String) : Bool :=
  match o with
  | none => false
  | some s => !(s = "")

/-- `String.prototype.trim`: strips leading and trailing whitespace.
Modelled on the underlying character list (rather than Lean's byte-index
`String.trim`) so that it evaluates by kernel reduction on concrete
inputs. -/
def jsTrim (s : String) : String :=
  String.mk (((s.data.dropWhile Char.isWhitespace).reverse.dropWhile
    Char.isWhitespace).reverse)

/-- React state of the `Chat` component plus the transport fields its
handlers read: `messages`, `input` and `status` are the `useState` cells;
`wsPresent` models `wsRef.current` being non-null and `readyState` the
browser socket's ready state (`1` = OPEN). -/
structure ChatState where
  messages : List MsgEntry
  input : String
  status : String
  wsPresent : Bool
  readyState : Nat
deriving DecidableEq, Repr

/-- `sendMessage` from `Chat.jsx`: returns the updated state and the
frame passed to `ws.send`, if any.  The guard
`if (!input.trim() || !wsRef.current || wsRef.current.readyState !== 1) return;`
exits before anything is appended or sent; otherwise the trimmed text is
appended with sender `"user"`, the structured frame is sent, and the
input is cleared. -/
def sendMessage (s : ChatState) : ChatState × Option OutFrame :=
  if jsTrim s.input = "" ∨ s.wsPresent = false ∨ s.readyState ≠ 1 then
    (s, none)
  else
    let text := jsTrim s.input
    ({ s with messages := s.messages ++ [{ text := text, sender := "user" }], input := "" },
     some { type := "message", content := text })

/-- `ws.onmessage` from `Chat.jsx` on a frame that parsed as JSON:
appends `{ text: data.content, sender: data.sender || 'bot' }` when
`data.content` is truthy, and does nothing otherwise. -/
def onmessage (s : ChatState) (f : InFrame) : ChatState :=
  if jsTruthy f.content then
    { s with messages := s.messages ++
        [{ text := f.content.getD "",
           sender := if jsTruthy f.sender then f.sender.getD "" else "bot" }] }
  else s

/-- `ws.onclose` from `Chat.jsx`: sets the status and unconditionally
calls `setTimeout(connect, 2000)`.  The second component records whether
a reconnect attempt was scheduled. -/
def oncloseHandler (s : ChatState) : ChatState × Bool :=
  ({ s with status := "Disconnected" }, true)

/-- Unmount cleanup from the `Chat` effect:
`if (wsRef.current) wsRef.current.close();` — closes the socket when one
exists (the browser moves its ready state to CLOSING, here `2`).  No
intentional-close flag exists in the component, so the state carries
none. -/
def unmountCleanup (s : ChatState) : ChatState :=
  if s.wsPresent then { s with readyState := 2 } else s

/-- Events observed by the chat controller, each dispatched by the host
event loop: an inbound frame that parsed, an inbound frame whose
`JSON.parse` threw (caught and logged, state untouched), a keystroke
updating the input, a form submission, the socket opening (handler sets
the status; the browser has moved `readyState` to OPEN), and the socket
closing. -/
inductive ChatEvent where
  | inbound (f : InFrame) : ChatEvent
  | inboundMalformed : ChatEvent
  | setInput (t : String) : ChatEvent
  | submit : ChatEvent
  | opened : ChatEvent
  | closed : ChatEvent
deriving DecidableEq, Repr

/-- One controller step per observed event, combining each handler from
`Chat.jsx` with the browser-side ready-state transition that accompanies
its event. -/
def chatStep (s : ChatState) (e : ChatEvent) : ChatState :=
  match e with
  | .inbound f => onmessage s f
  | .inboundMalformed => s
  | .setInput t => { s with input := t }
  | .submit => (sendMessage s).1
  | .opened => { s with status := "Connected", readyState := 1 }
  | .closed => { (oncloseHandler s).1 with readyState := 3 }

/-- C1, counterexample: `logout()` invoked from an authenticated state
whose network call fails leaves the gate `Authenticated`, not
`Unauthenticated` — the `setUser(null)` line is unreachable once
`await api.logout()` throws. -/
theorem logout_netfail_not_unauthenticated :
    phase (logout { user := true, loading := false, setupNeeded := false }
      (ReqResult.err ReqError.netError)).1 ≠ Phase.Unauthenticated := by
  decide

/-- C1, amended: `logout()` results in phase `Unauthenticated` when the
network call succeeds (and setup is not flagged); when the call raises,
the provider state is unchanged — so an authenticated session stays
authenticated — and the error propagates to the caller. -/
theorem logout_success_clears_failure_keeps (s : AuthState) (b : JsonBody)
    (e : ReqError) (hl : s.loading = false) (hs : s.setupNeeded = false) :
    phase (logout s (ReqResult.ok b)).1 = Phase.Unauthenticated ∧
    (logout s (ReqResult.err e)).1 = s ∧
    (logout s (ReqResult.err e)).2 = some e := by
  refine ⟨?_, rfl, rfl⟩
  simp [logout, phase, hl, hs]

/-- Witness for the amended C1 theorem at a concrete authenticated
state. -/
theorem logout_success_clears_failure_keeps_witness :
    phase (logout { user := true, loading := false, setupNeeded := false }
      (ReqResult.ok {})).1 = Phase.Unauthenticated ∧
    (logout { user := true, loading := false, setupNeeded := false }
      (ReqResult.err ReqError.netError)).1 =
      { user := true, loading := false, setupNeeded := false } ∧
    (logout { user := true, loading := false, setupNeeded := false }
      (ReqResult.err ReqError.netError)).2 = some ReqError.netError :=
  logout_success_clears_failure_keeps
    { user := true, loading := false, setupNeeded := false } {}
    ReqError.netError rfl rfl

/-- C2, counterexample: while the server has reported setup-needed,
visiting `/login` renders the login form — `PublicRoute` returns its
child outlet for every child while `setupNeeded` holds — both without a
session and with one. -/
theorem setup_mode_login_reachable :
    PublicRoute { user := false, loading := false, setupNeeded := true }
      PublicChild.loginPage = View.LoginForm ∧
    PublicRoute { user := true, loading := false, setupNeeded := true }
      PublicChild.loginPage = View.LoginForm := by
  constructor <;> decide

/-- C2, amended: while setup is needed, private routes redirect to
`/setup` (never rendering login or protected content) and the `/setup`
route renders the setup form; the login form nevertheless stays
reachable — the `/login` route renders it when visited directly,
regardless of any session. -/
theorem setup_precedence_routes (s : AuthState)
    (hl : s.loading = false) (hs : s.setupNeeded = true) :
    PrivateRoute s = View.Redirect "/setup" ∧
    PublicRoute s PublicChild.setupPage = View.SetupForm ∧
    PublicRoute s PublicChild.loginPage = View.LoginForm := by
  simp [PrivateRoute, PublicRoute, renderPublicChild, hl, hs]

/-- Witness for the amended C2 theorem at a concrete setup-needed
state. -/
theorem setup_precedence_routes_witness :
    PrivateRoute { user := false, loading := false, setupNeeded := true } =
      View.Redirect "/setup" ∧
    PublicRoute { user := false, loading := false, setupNeeded := true }
      PublicChild.setupPage = View.SetupForm ∧
    PublicRoute { user := false, loading := false, setupNeeded := true }
      PublicChild.loginPage = View.LoginForm :=
  setup_precedence_routes
    { user := false, loading := false, setupNeeded := true } rfl rfl

/-- C7, counterexample: while the initial check is outstanding, a public
route renders nothing at all (`return null`), not the waiting
indicator — only `PrivateRoute` shows the spinner. -/
theorem public_route_loading_blank :
    PublicRoute { user := false, loading := true, setupNeeded := false }
      PublicChild.loginPage = View.Blank ∧
    View.Blank ≠ View.Spinner := by
  constructor <;> decide

/-- C7, amended: while `loading` holds (phase `Unresolved`), protected
routes render the spinner and public routes render nothing; neither
renders the login form, the setup form, protected content, or a
redirect. -/
theorem loading_renders_neutral (s : AuthState) (c : PublicChild)
    (h : s.loading = true) :
    PrivateRoute s = View.Spinner ∧ PublicRoute s c = View.Blank := by
  simp [PrivateRoute, PublicRoute, h]

/-- Witness for the amended C7 theorem at the initial provider state. -/
theorem loading_renders_neutral_witness :
    PrivateRoute initialAuthState = View.Spinner ∧
    PublicRoute initialAuthState PublicChild.loginPage = View.Blank :=
  loading_renders_neutral initialAuthState PublicChild.loginPage rfl

/-- C5, counterexample: a 401 login response carrying
`{error:"bad password"}` is surfaced as `ApiError('Unauthorized', 401)` —
the dedicated 401 branch in `request` throws before the body is read, so
the server-provided message is discarded and the UI shows
"Unauthorized". -/
theorem unauthorized_masks_server_message :
    request (FetchOutcome.resp 401 true
      { error := some "bad password", authenticated := false,
        setup_needed := false }) =
      ReqResult.err (ReqError.apiError "Unauthorized" 401) ∧
    displayError "Unauthorized" ≠ "bad password" := by
  constructor <;> decide

/-- C5, amended: for a non-2xx response whose status is not 401 and
whose body parses with a non-empty `error` field, `request` throws a
typed error carrying the server message and the HTTP status, and the UI
displays exactly that message; a 401 instead always surfaces the fixed
message "Unauthorized". -/
theorem request_surfaces_server_error (status : Nat) (body : JsonBody)
    (m : String) (h401 : status ≠ 401) (hok : statusOk status = false)
    (herr : body.error = some m) (hm : m ≠ "") :
    request (FetchOutcome.resp status true body) =
      ReqResult.err (ReqError.apiError m status) ∧
    displayError m = m := by
  constructor
  · simp [request, jsOr, h401, hok, herr, hm]
  · simp [displayError, hm]

/-- Witness for the amended C5 theorem: a 400 with
`{error:"bad password"}`. -/
theorem request_surfaces_server_error_witness :
    request (FetchOutcome.resp 400 true
      { error := some "bad password", authenticated := false,
        setup_needed := false }) =
      ReqResult.err (ReqError.apiError "bad password" 400) ∧
    displayError "bad password" = "bad password" :=
  request_surfaces_server_error 400
    { error := some "bad password", authenticated := false,
      setup_needed := false }
    "bad password" (by decide) (by decide) rfl (by decide)

/-- C8, counterexample: when `login("wrong")` fails with a 401 carrying
`{error:"bad password"}`, the error propagated to the caller has message
"Unauthorized", not the server-provided message. -/
theorem login_401_message_not_server :
    (login { user := false, loading := false, setupNeeded := false }
      (request (FetchOutcome.resp 401 true
        { error := some "bad password", authenticated := false,
          setup_needed := false }))
      (ReqResult.ok {})).2 =
      some (ReqError.apiError "Unauthorized" 401) ∧
    ("Unauthorized" : String) ≠ "bad password" := by
  constructor <;> decide

/-- C8, amended: whenever the credential request of `login` raises, the
provider state after the call equals the state before it and the raised
error is propagated unchanged to the caller; that error carries the
server-provided message (with the HTTP status) for non-401 statuses
whose `error` field is a non-empty string (a falsy `error` field falls
back to 'API Error'), while a 401 yields the fixed message
"Unauthorized". -/
theorem login_failure_keeps_state (s : AuthState) (cr : ReqResult)
    (f : FetchOutcome) (e : ReqError) (h : request f = ReqResult.err e) :
    (login s (request f) cr).1 = s ∧
    (login s (request f) cr).2 = some e ∧
    (∀ status body m, f = FetchOutcome.resp status true body →
      status ≠ 401 → statusOk status = false → body.error = some m →
      m ≠ "" → e = ReqError.apiError m status) := by
  refine ⟨by simp [h, login], by simp [h, login], ?_⟩
  intro status body m hf h401 hok herr hm
  subst hf
  simp [request, jsOr, h401, hok, herr, hm] at h
  exact h.symm

/-- Witness for the amended C8 theorem: a 500 with `{error:"boom"}`. -/
theorem login_failure_keeps_state_witness :
    (login { user := true, loading := false, setupNeeded := false }
      (request (FetchOutcome.resp 500 true
        { error := some "boom", authenticated := false,
          setup_needed := false }))
      (ReqResult.ok {})).1 =
      { user := true, loading := false, setupNeeded := false } ∧
    (login { user := true, loading := false, setupNeeded := false }
      (request (FetchOutcome.resp 500 true
        { error := some "boom", authenticated := false,
          setup_needed := false }))
      (ReqResult.ok {})).2 = some (ReqError.apiError "boom" 500) ∧
    (∀ status body m,
      FetchOutcome.resp 500 true
        { error := some "boom", authenticated := false,
          setup_needed := false } = FetchOutcome.resp status true body →
      status ≠ 401 → statusOk status = false → body.error = some m →
      m ≠ "" → ReqError.apiError "boom" 500 = ReqError.apiError m status) :=
  login_failure_keeps_state
    { user := true, loading := false, setupNeeded := false }
    (ReqResult.ok {})
    (FetchOutcome.resp 500 true
      { error := some "boom", authenticated := false,
        setup_needed := false })
    (ReqError.apiError "boom" 500) (by decide)

/-- C3, counterexample: a submission with non-empty trimmed text while
the transport is not open (ready state CONNECTING) appends nothing —
`sendMessage` returns before the optimistic append when
`readyState !== 1`. -/
theorem submit_not_open_appends_nothing :
    (sendMessage
      { messages := [], input := "hi", status := "Connecting...",
        wsPresent := true, readyState := 0 }).1.messages = [] := by
  rfl

/-- C3, amended: when the trimmed text is non-empty, a socket exists and
its ready state is open, `sendMessage` appends the local entry with
sender "user" (and it stays in the log); when the transport is not open
the whole submission is a no-op — nothing is appended and nothing is
sent. -/
theorem submit_appends_when_open (s t : ChatState)
    (h : jsTrim s.input ≠ "") (hw : s.wsPresent = true)
    (hr : s.readyState = 1) (ht : t.readyState ≠ 1) :
    (sendMessage s).1.messages =
      s.messages ++ [{ text := jsTrim s.input, sender := "user" }] ∧
    sendMessage t = (t, none) := by
  constructor
  · simp [sendMessage, h, hw, hr]
  · simp [sendMessage, ht]

/-- Witness for the amended C3 theorem with text " hi " on an open
socket and the same submission on a closed one. -/
theorem submit_appends_when_open_witness :
    (sendMessage
      { messages := [], input := " hi ", status := "Connected",
        wsPresent := true, readyState := 1 }).1.messages =
      [] ++ [{ text := jsTrim " hi ", sender := "user" }] ∧
    sendMessage
      { messages := [], input := " hi ", status := "Disconnected",
        wsPresent := true, readyState := 3 } =
      ({ messages := [], input := " hi ", status := "Disconnected",
         wsPresent := true, readyState := 3 }, none) :=
  submit_appends_when_open
    { messages := [], input := " hi ", status := "Connected",
      wsPresent := true, readyState := 1 }
    { messages := [], input := " hi ", status := "Disconnected",
      wsPresent := true, readyState := 3 }
    (by decide) rfl rfl (by decide)

/-- C4, counterexample: a send attempt with non-empty text while the
socket is CLOSED returns the state unchanged with no frame and no error
value of any kind — a silent drop; the code has no throw on this path
and no `NotReadyError` exists anywhere in the sources. -/
theorem send_not_open_silent_drop :
    sendMessage
      { messages := [], input := "hello", status := "Disconnected",
        wsPresent := true, readyState := 3 } =
      ({ messages := [], input := "hello", status := "Disconnected",
         wsPresent := true, readyState := 3 }, none) := by
  rfl

/-- C4, amended: while the transport is not open, no network
transmission occurs and the call returns silently with the state
unchanged — the rejection is a silent drop, not a raised
`NotReadyError`. -/
theorem send_not_open_no_transmission (s : ChatState)
    (h : s.readyState ≠ 1) :
    sendMessage s = (s, none) := by
  simp [sendMessage, h]

/-- Witness for the amended C4 theorem on a CONNECTING socket. -/
theorem send_not_open_no_transmission_witness :
    sendMessage
      { messages := [], input := "hello", status := "Connecting...",
        wsPresent := true, readyState := 0 } =
      ({ messages := [], input := "hello", status := "Connecting...",
         wsPresent := true, readyState := 0 }, none) :=
  send_not_open_no_transmission
    { messages := [], input := "hello", status := "Connecting...",
      wsPresent := true, readyState := 0 } (by decide)

/-- C6, counterexample: after the caller-initiated close of the unmount
cleanup, the close callback that follows still schedules a reconnect —
`ws.onclose` runs `setTimeout(connect, 2000)` unconditionally, there
being no intentional-close marker. -/
theorem close_after_unmount_reconnects :
    (oncloseHandler (unmountCleanup
      { messages := [], input := "", status := "Connected",
        wsPresent := true, readyState := 1 })).2 = true := by
  rfl

/-- C6, amended: the close callback unconditionally schedules a
reconnection attempt after the fixed delay and marks the status
disconnected — including for the close that follows the caller-initiated
teardown on unmount, since the component keeps no intentional-close
flag. -/
theorem onclose_always_schedules (s : ChatState) :
    (oncloseHandler (unmountCleanup s)).2 = true ∧
    (oncloseHandler s).2 = true ∧
    (oncloseHandler s).1.status = "Disconnected" :=
  ⟨rfl, rfl, rfl⟩

/-- C9: observing inbound frame A, then a local submission C, then
inbound frame B — from a state whose socket is open — yields exactly the
log `old ++ [A, C, B]`; moreover every controller step only extends the
log at its end, so no entry is ever reordered or removed after
append. -/
theorem chat_log_append_order (s : ChatState) (a b c sA sB : String)
    (hr : s.readyState = 1) (hw : s.wsPresent = true)
    (ha : a ≠ "") (hb : b ≠ "") (hsA : sA ≠ "") (hsB : sB ≠ "")
    (hc : jsTrim c ≠ "") :
    (List.foldl chatStep s
      [ChatEvent.inbound { content := some a, sender := some sA },
       ChatEvent.setInput c, ChatEvent.submit,
       ChatEvent.inbound { content := some b, sender := some sB }]).messages =
      s.messages ++ [{ text := a, sender := sA },
                     { text := jsTrim c, sender := "user" },
                     { text := b, sender := sB }] ∧
    (∀ (t : ChatState) (e : ChatEvent), ∃ tl,
      (chatStep t e).messages = t.messages ++ tl) := by
  constructor
  · simp [chatStep, onmessage, sendMessage, jsTruthy, ha, hb, hsA, hsB,
      hc, hr, hw]
  · intro t e
    cases e with
    | inbound f =>
      by_cases hf : jsTruthy f.content = true
      · exact ⟨[{ text := f.content.getD "",
                  sender := if jsTruthy f.sender then f.sender.getD ""
                            else "bot" }],
          by simp [chatStep, onmessage, hf]⟩
      · exact ⟨[], by simp [chatStep, onmessage, hf]⟩
    | inboundMalformed => exact ⟨[], by simp [chatStep]⟩
    | setInput u => exact ⟨[], by simp [chatStep]⟩
    | submit =>
      by_cases hg : jsTrim t.input = "" ∨ t.wsPresent = false ∨
          t.readyState ≠ 1
      · exact ⟨[], by simp [chatStep, sendMessage, hg]⟩
      · exact ⟨[{ text := jsTrim t.input, sender := "user" }],
          by simp [chatStep, sendMessage, hg]⟩
    | opened => exact ⟨[], by simp [chatStep]⟩
    | closed => exact ⟨[], by simp [chatStep, oncloseHandler]⟩

/-- Witness for C9: frames "A" and "B" around submission "C" on an open
socket produce the log `[A, C, B]`. -/
theorem chat_log_append_order_witness :
    (List.foldl chatStep
      { messages := [], input := "", status := "Connected",
        wsPresent := true, readyState := 1 }
      [ChatEvent.inbound { content := some "A", sender := some "bot" },
       ChatEvent.setInput "C", ChatEvent.submit,
       ChatEvent.inbound { content := some "B", sender := some "bot" }]).messages =
      [] ++ [{ text := "A", sender := "bot" },
             { text := jsTrim "C", sender := "user" },
             { text := "B", sender := "bot" }] ∧
    (∀ (t : ChatState) (e : ChatEvent), ∃ tl,
      (chatStep t e).messages = t.messages ++ tl) :=
  chat_log_append_order
    { messages := [], input := "", status := "Connected",
      wsPresent := true, readyState := 1 }
    "A" "B" "C" "bot" "bot" rfl rfl (by decide) (by decide) (by decide)
    (by decide) (by decide)

/-- C10: an inbound frame whose `content` field is the empty string is
dropped exactly like a frame lacking `content` — the truthiness test
`if (data.content)` fails for both, so no log entry is appended and the
state is untouched. -/
theorem empty_content_frame_dropped (s : ChatState)
    (sender : Option String) :
    chatStep s (ChatEvent.inbound { content := some "", sender := sender }) =
      s ∧
    chatStep s (ChatEvent.inbound { content := none, sender := sender }) =
      s := by
  constructor <;> simp [chatStep, onmessage, jsTruthy]
